import Mathlib

/-!
Verification development for the session/authentication and entitlement
subsystem of the quick-bill-blaster repository.

The definitions below are shallow embeddings of:
- the client-side rate limiter (`class RateLimiter` in `src/lib/security.ts`),
- the entitlement engine (`PLANS` and the `useSubscription` helpers in
  `src/lib/stripe.ts` / `src/hooks/useSubscription.ts`),
- the `verify-google-token` edge function, and
- the `CustomAuthService` session core (`src/lib/customAuth.ts`).

Conventions: JS millisecond clocks are `Int`; `localStorage` for one key is the
stored value itself; every external call that can fail (the tokeninfo fetch,
the database upsert, the credential decoding) is an explicit oracle argument at
the corresponding `await`/call site, so interleavings of the single-threaded
event loop can be replayed as sequential function application.
-/

namespace QuickBill

/-! ## Rate limiter (`src/lib/security.ts`, `class RateLimiter`) -/

structure RateEntry where
  timestamp : Int
  count : Int
deriving Repr, DecidableEq

def oneHourMs : Int := 60 * 60 * 1000

/-- `cleanupExpiredEntries`: keeps entries with `now - entry.timestamp < oneHour`.
The one-hour constant is hard-coded in the method body. -/
def cleanupExpiredEntries (now : Int) (entries : List RateEntry) : List RateEntry :=
  entries.filter (fun entry => now - entry.timestamp < oneHourMs)

/-- The `entries.reduce((sum, entry) => sum + entry.count, 0)` of the source. -/
def totalCount (entries : List RateEntry) : Int :=
  entries.foldl (fun sum entry => sum + entry.count) 0

/-- `isAllowed(action, limit, windowMs)` for one action key: returns the boolean
result together with the stored entry list after the call (the stored list is
rewritten only on acceptance). `windowMs` is a declared parameter of the source
method, with default one hour; the body never reads it. -/
def isAllowed (now : Int) (stored : List RateEntry) (limit : Int) (windowMs : Int) :
    Bool × List RateEntry :=
  let entries := cleanupExpiredEntries now stored
  let total := totalCount entries
  if total ≥ limit then
    (false, stored)
  else
    (true, entries ++ [⟨now, 1⟩])

/-- Iterated `isAllowed` calls at a fixed instant, returning the result list. -/
def isAllowedRun (now : Int) (limit : Int) (windowMs : Int) :
    Nat → List RateEntry → List Bool
  | 0, _ => []
  | n + 1, stored =>
    let r := isAllowed now stored limit windowMs
    r.1 :: isAllowedRun now limit windowMs n r.2

/-! ## Entitlement engine (`src/lib/stripe.ts` PLANS, `useSubscription` helpers) -/

inductive PlanType where
  | free
  | pro
  | business
deriving Repr, DecidableEq

structure PlanLimits where
  invoices : Int
  clients : Int
deriving Repr, DecidableEq

/-- The `features` arrays of the `PLANS` table, verbatim. -/
def planFeatures : PlanType → List String
  | .free =>
    ["5 invoices per month", "Basic templates", "Email support",
     "Basic client management"]
  | .pro =>
    ["Unlimited invoices", "Custom templates", "Priority support",
     "Advanced reporting", "Client portal", "Payment tracking"]
  | .business =>
    ["Everything in Pro", "Multi-user accounts", "API access",
     "Custom integrations", "Dedicated support", "White-label options"]

/-- The `limits` records of the `PLANS` table; `-1` is the unlimited sentinel. -/
def planLimits : PlanType → PlanLimits
  | .free => ⟨5, 10⟩
  | .pro => ⟨-1, -1⟩
  | .business => ⟨-1, -1⟩

/-- JS `String.prototype.toLowerCase` on the ASCII feature strings. -/
def jsToLowerCase (s : String) : String := ⟨s.data.map Char.toLower⟩

def charsPrefixOf : List Char → List Char → Bool
  | [], _ => true
  | _ :: _, [] => false
  | a :: as, b :: bs => a == b && charsPrefixOf as bs

def charsInfixOf : List Char → List Char → Bool
  | needle, [] => needle.isEmpty
  | needle, b :: bs => charsPrefixOf needle (b :: bs) || charsInfixOf needle bs

/-- JS `hay.includes(needle)` on strings. -/
def jsIncludes (hay needle : String) : Bool :=
  charsInfixOf needle.data hay.data

/-- `hasFeature` from `useSubscription`:
`plan.features.some(f => f.toLowerCase().includes(feature.toLowerCase()))`. -/
def hasFeature (tier : PlanType) (feature : String) : Bool :=
  (planFeatures tier).any
    (fun f => jsIncludes (jsToLowerCase f) (jsToLowerCase feature))

/-- `canCreateInvoice(currentCount)` under the given tier. -/
def canCreateInvoice (tier : PlanType) (currentCount : Int) : Bool :=
  let limit := (planLimits tier).invoices
  limit == -1 || currentCount < limit

/-- `canCreateClient(currentCount)` under the given tier. -/
def canCreateClient (tier : PlanType) (currentCount : Int) : Bool :=
  let limit := (planLimits tier).clients
  limit == -1 || currentCount < limit

/-- The total order free < pro < business used by the tier enumeration. -/
def tierRank : PlanType → Nat
  | .free => 0
  | .pro => 1
  | .business => 2

/-! ## Identity assertion verifier (`supabase/functions/verify-google-token`) -/

/-- The client-claimed Google user shipped alongside the credential
(`GoogleUser` in `src/lib/google-auth.ts`). -/
structure GoogleUser where
  id : String
  email : String
  name : String
  picture : String
  given_name : String
  family_name : String
deriving Repr, DecidableEq

/-- The payload returned by the identity provider's tokeninfo endpoint
(`GoogleTokenPayload` in the edge function). -/
structure GoogleTokenPayload where
  iss : String
  sub : String
  aud : String
  email : String
  email_verified : Bool
  name : String
  picture : String
  given_name : String
  family_name : String
  iat : Int
  exp : Int
deriving Repr, DecidableEq

structure VerifiedUser where
  id : String
  email : String
  name : String
  picture : String
deriving Repr, DecidableEq

/-- The HTTP response of the edge function: a 200 with the verified user, or an
error status with the JSON body's `error` string. -/
inductive VerifyResponse where
  | ok (user : VerifiedUser)
  | err (status : Nat) (message : String)
deriving Repr, DecidableEq

/-- The check sequence of the `verify-google-token` handler. `introspection` is
the outcome of the `tokeninfo` fetch (`none` models a non-ok provider
response); `nowSec` is the server clock in seconds
(`Math.floor(Date.now() / 1000)`). Each thrown `Error` becomes, through the
handler's catch block, a 401 response carrying that error's message. -/
def verifyChecks (expectedAudience : String) (introspection : Option GoogleTokenPayload)
    (googleUser : GoogleUser) (nowSec : Int) : VerifyResponse :=
  match introspection with
  | none => .err 401 "Invalid Google token"
  | some tokenData =>
    if tokenData.aud ≠ expectedAudience then .err 401 "Token audience mismatch"
    else if tokenData.exp < nowSec then .err 401 "Token has expired"
    else if !tokenData.email_verified then .err 401 "Email not verified by Google"
    else if tokenData.sub ≠ googleUser.id ∨ tokenData.email ≠ googleUser.email then
      .err 401 "Token data mismatch"
    else .ok ⟨tokenData.sub, tokenData.email, tokenData.name, tokenData.picture⟩

/-- The full request handler: a missing (empty) credential is a 400 before any
verification; otherwise the checks above run. -/
def serveVerify (credential : String) (expectedAudience : String)
    (introspection : Option GoogleTokenPayload) (googleUser : GoogleUser)
    (nowSec : Int) : VerifyResponse :=
  if credential = "" then .err 400 "No credential provided"
  else verifyChecks expectedAudience introspection googleUser nowSec

/-! ## Session/auth core (`src/lib/customAuth.ts`, `CustomAuthService`) -/

structure CustomUser where
  id : String
  email : String
  name : String
  picture : String
  google_id : String
  created_at : String
  updated_at : String
deriving Repr, DecidableEq

structure CustomSession where
  user : CustomUser
  access_token : String
  expires_at : Int
deriving Repr, DecidableEq

/-- A row of the backend `user_profiles` table. -/
structure UserRow where
  id : String
  google_id : String
  email : String
  full_name : String
  avatar_url : String
  created_at : String
  updated_at : String
deriving Repr, DecidableEq

/-- A registered auth-state subscriber, identified by registration id;
`throws` models a callback whose body throws when invoked. -/
structure Listener where
  id : Nat
  throws : Bool
deriving Repr, DecidableEq

/-- The service state: the in-memory session, the persisted
`custom_auth_session` storage key, the backend `user_profiles` table, the
`last_activity` storage key, and the registered listeners. -/
structure AuthState where
  session : Option CustomSession
  storedSession : Option CustomSession
  userStore : List UserRow
  lastActivity : Int
  listeners : List Listener
deriving Repr, DecidableEq

/-- `getSession()`: a pure read of the in-memory session. -/
def getSession (st : AuthState) : Option CustomSession := st.session

/-- `getUser()`: `this.session?.user || null`. -/
def getUser (st : AuthState) : Option CustomUser :=
  match st.session with
  | some s => some s.user
  | none => none

/-- Invoking one subscriber callback: a normal return, or the exception the
callback body throws. -/
def invokeListener (l : Listener) (s : Option CustomSession) : Except String Unit :=
  if l.throws then .error "Error in auth state listener" else .ok ()

/-- `notifyListeners()`: every registered callback is invoked with the current
session inside a try/catch, so a throwing callback is logged and iteration
continues with the next one. Returns the performed invocations as
(listener id, delivered value) pairs, in iteration order. -/
def notifyListeners (s : Option CustomSession) : List Listener → List (Nat × Option CustomSession)
  | [] => []
  | l :: rest =>
    match invokeListener l s with
    | .ok _ => (l.id, s) :: notifyListeners s rest
    | .error _ => (l.id, s) :: notifyListeners s rest

/-- `onAuthStateChange(callback)`: appends the subscriber
(`this.listeners.push(callback)`). -/
def onAuthStateChange (l : Listener) (st : AuthState) : AuthState :=
  { st with listeners := st.listeners ++ [l] }

/-- The returned unsubscribe handle: filters the callback out. -/
def unsubscribe (l : Listener) (st : AuthState) : AuthState :=
  { st with listeners := st.listeners.filter (fun x => x ≠ l) }

/-- `setSession`: assigns the in-memory session, saves it to storage
(`setItem` when present, `removeItem` when null), and notifies listeners.
Returns the new state and the notification log. -/
def setSession (s : Option CustomSession) (st : AuthState) :
    AuthState × List (Nat × Option CustomSession) :=
  ({ st with session := s, storedSession := s }, notifyListeners s st.listeners)

/-- `signOut()`: clears the in-memory and persisted session, updates the
last-activity instant, and (through `setSession`) notifies subscribers with no
session. -/
def signOut (now : Int) (st : AuthState) : AuthState × List (Nat × Option CustomSession) :=
  let r := setSession none st
  ({ r.1 with storedSession := none, lastActivity := now }, r.2)

/-- `isAuthenticated()`: false without a session; with a session,
`Date.now() > expires_at` triggers the implicit `signOut()` and returns false,
otherwise true. Returns (result, state after the call, notification log). -/
def isAuthenticated (now : Int) (st : AuthState) :
    Bool × AuthState × List (Nat × Option CustomSession) :=
  match st.session with
  | none => (false, st, [])
  | some s =>
    if now > s.expires_at then
      let r := signOut now st
      (false, r.1, r.2)
    else (true, st, [])

/-- The `upsert(..., onConflict google_id)` of `createOrUpdateUser`: when a row
with the google id exists, its mutable profile fields are updated; otherwise a
row is inserted whose primary key `newId` and `created_at` the database
generates. Returns the selected row and the resulting table. -/
def upsertUserRow (gu : GoogleUser) (nowIso : String) (newId : String)
    (store : List UserRow) : UserRow × List UserRow :=
  match store.find? (fun r => r.google_id == gu.id) with
  | some row =>
    let row2 : UserRow :=
      { row with email := gu.email, full_name := gu.name, avatar_url := gu.picture,
                 updated_at := nowIso }
    (row2, store.map (fun r => if r.google_id == gu.id then row2 else r))
  | none =>
    let row2 : UserRow := ⟨newId, gu.id, gu.email, gu.name, gu.picture, nowIso, nowIso⟩
    (row2, store ++ [row2])

/-- The `CustomUser` built from the selected row
(`data.full_name || googleUser.name` falls back on an empty stored name). -/
def rowToCustomUser (gu : GoogleUser) (row : UserRow) : CustomUser :=
  { id := row.id, email := row.email,
    name := if row.full_name = "" then gu.name else row.full_name,
    picture := row.avatar_url, google_id := row.google_id,
    created_at := row.created_at, updated_at := row.updated_at }

/-- `generateAccessToken`: an unsigned token over {sub, email, iat, exp}; the
base64/JSON encoding of the source is abstracted into a readable serialization
of the same payload fields. -/
def generateAccessToken (user : CustomUser) (now : Int) : String :=
  "sub=" ++ user.id ++ ";email=" ++ user.email ++ ";iat=" ++ toString (now / 1000)
    ++ ";exp=" ++ toString (now / 1000 + 24 * 60 * 60)

/-- The `{ user, error }` result of `signInWithGoogle`. -/
structure SignInResult where
  user : Option CustomUser
  error : Option String
deriving Repr, DecidableEq

/-- The continuation of `signInWithGoogle` from the point its verification call
resolves (the code after `await supabase.functions.invoke(...)`): on a
verification failure the thrown error is caught and normalized; on success come
the user upsert (`dbError` models a failing database upsert, which leaves the
table unchanged and is caught and normalized), the session minting with a
24-hour expiry, `setSession`, and the last-activity update. The RPC transport
is modelled as delivering the edge function's response verbatim, so the caught
verification error carries the function's message. Nothing here consults
`st.session` before applying the upsert and the session overwrite. -/
def signInContinue (gu : GoogleUser) (verification : VerifyResponse) (dbError : Bool)
    (newId : String) (nowIso : String) (now : Int) (st : AuthState) :
    SignInResult × AuthState × List (Nat × Option CustomSession) :=
  match verification with
  | .err _ msg => (⟨none, some ("Token verification failed: " ++ msg)⟩, st, [])
  | .ok _ =>
    if dbError then (⟨none, some "User creation failed: Database error"⟩, st, [])
    else
      let r0 := upsertUserRow gu nowIso newId st.userStore
      let userData := rowToCustomUser gu r0.1
      let session : CustomSession :=
        ⟨userData, generateAccessToken userData now, now + 24 * 60 * 60 * 1000⟩
      let r1 := setSession (some session) { st with userStore := r0.2 }
      (⟨some userData, none⟩, { r1.1 with lastActivity := now }, r1.2)

/-- `signInWithGoogle(credential)` run to completion with no interleaved
operation: decode the credential (`decoded` is the outcome of
`decodeGoogleToken`, `none` for an undecodable credential, which the catch
block turns into the normalized result), verify with the backend, then continue
as in `signInContinue`. -/
def signInWithGoogle (decoded : Option GoogleUser) (expectedAudience : String)
    (introspection : Option GoogleTokenPayload) (nowSec : Int) (dbError : Bool)
    (newId : String) (nowIso : String) (now : Int) (st : AuthState) :
    SignInResult × AuthState × List (Nat × Option CustomSession) :=
  match decoded with
  | none => (⟨none, some "Invalid Google credential"⟩, st, [])
  | some gu =>
    signInContinue gu (verifyChecks expectedAudience introspection gu nowSec)
      dbError newId nowIso now st

/-! ## Concrete sample inputs used to instantiate the theorems -/

/-- A client-claimed Google identity. -/
def guSample : GoogleUser :=
  ⟨"g-1", "ada@example.com", "Ada", "pic.png", "Ada", "L"⟩

/-- A tokeninfo payload that passes every check against `guSample` when the
configured client id is `"cid"` and the server clock is at most 99999. -/
def tdSample : GoogleTokenPayload :=
  ⟨"accounts.google.com", "g-1", "cid", "ada@example.com", true, "Ada", "pic.png",
   "Ada", "L", 0, 99999⟩

/-- Like `tdSample` but minted for a different audience. -/
def tdAudSample : GoogleTokenPayload := { tdSample with aud := "other-client" }

/-- Like `tdSample` but already expired at server time 10. -/
def tdExpiredSample : GoogleTokenPayload := { tdSample with exp := 5 }

/-- The pristine service state: no session, empty user table, no listeners. -/
def stEmpty : AuthState := ⟨none, none, [], 0, []⟩

def userSample : CustomUser :=
  ⟨"u-1", "ada@example.com", "Ada", "pic.png", "g-1", "t0", "t0"⟩

/-- A session for `userSample` that expires at instant 100. -/
def sessSample : CustomSession := ⟨userSample, "tok", 100⟩

def rowSample : UserRow :=
  ⟨"u-1", "g-1", "ada@example.com", "Ada", "pic.png", "t0", "t0"⟩

/-- A signed-in service state holding `sessSample`, its user row, and two
subscribers, the second of which throws when invoked. -/
def stSignedIn : AuthState :=
  ⟨some sessSample, some sessSample, [rowSample], 0, [⟨0, false⟩, ⟨1, true⟩]⟩

/-! ## Helper lemmas -/

theorem totalCount_foldl (xs : List RateEntry) (a : Int) :
    xs.foldl (fun sum entry => sum + entry.count) a = a + totalCount xs := by
  induction xs generalizing a with
  | nil => simp [totalCount]
  | cons x xs ih =>
    simp only [List.foldl_cons, totalCount]
    rw [ih, ih (0 + x.count)]
    ring

theorem totalCount_append (xs ys : List RateEntry) :
    totalCount (xs ++ ys) = totalCount xs + totalCount ys := by
  unfold totalCount
  rw [List.foldl_append, totalCount_foldl]
  rfl

theorem cleanup_idempotent (now : Int) (xs : List RateEntry) :
    cleanupExpiredEntries now (cleanupExpiredEntries now xs) =
      cleanupExpiredEntries now xs := by
  unfold cleanupExpiredEntries
  induction xs with
  | nil => rfl
  | cons x xs ih =>
    by_cases h : now - x.timestamp < oneHourMs <;>
      simp [List.filter_cons, h, ih]

/-- Claim C6 helper: which listener callbacks run is independent of which ones
throw — notifying is the full map over the registry. -/
theorem notifyListeners_eq_map (s : Option CustomSession) (ls : List Listener) :
    notifyListeners s ls = ls.map (fun l => (l.id, s)) := by
  induction ls with
  | nil => rfl
  | cons l rest ih =>
    cases h : invokeListener l s <;> simp [notifyListeners, h, ih]

/-! ## Claims -/

/-- Claim C6: when the sum of counts of live (non-expired) entries is at or
above the limit, `isAllowed` returns false and records no new entry; otherwise
it appends one entry of count 1 and returns true, so after any accepted check
the live sum never exceeds the limit; and with limit 5, five consecutive calls
within the window return true while the sixth returns false. -/
theorem C6_rate_limit_invariant :
    (∀ (now : Int) (stored : List RateEntry) (limit windowMs : Int),
      (totalCount (cleanupExpiredEntries now stored) ≥ limit →
        isAllowed now stored limit windowMs = (false, stored)) ∧
      (totalCount (cleanupExpiredEntries now stored) < limit →
        isAllowed now stored limit windowMs =
          (true, cleanupExpiredEntries now stored ++ [⟨now, 1⟩]) ∧
        totalCount (cleanupExpiredEntries now (isAllowed now stored limit windowMs).2)
          ≤ limit)) ∧
    isAllowedRun 1000000 5 oneHourMs 6 [] = [true, true, true, true, true, false] := by
  constructor
  · intro now stored limit windowMs
    constructor
    · intro h
      simp only [isAllowed]
      rw [if_pos h]
    · intro h
      have hnot : ¬ totalCount (cleanupExpiredEntries now stored) ≥ limit := not_le.mpr h
      have heq : isAllowed now stored limit windowMs =
          (true, cleanupExpiredEntries now stored ++ [⟨now, 1⟩]) := by
        simp only [isAllowed]
        rw [if_neg hnot]
      refine ⟨heq, ?_⟩
      rw [heq]
      simp only []
      rw [show cleanupExpiredEntries now (cleanupExpiredEntries now stored ++ [⟨now, 1⟩]) =
            cleanupExpiredEntries now (cleanupExpiredEntries now stored) ++ [⟨now, 1⟩] by
          unfold cleanupExpiredEntries
          rw [List.filter_append]
          simp [oneHourMs]]
      rw [cleanup_idempotent, totalCount_append]
      have h1 : totalCount [(⟨now, 1⟩ : RateEntry)] = 1 := by
        simp [totalCount]
      rw [h1]
      omega
  · decide

/-- Witness for C6 at a concrete saturated store and a concrete accepting call. -/
theorem C6_rate_limit_invariant_witness :
    isAllowed 1000 [⟨999, 5⟩] 5 oneHourMs = (false, [⟨999, 5⟩]) ∧
    isAllowed 1000 [⟨999, 2⟩] 5 oneHourMs = (true, [⟨999, 2⟩, ⟨1000, 1⟩]) := by
  constructor
  · exact (C6_rate_limit_invariant.1 1000 [⟨999, 5⟩] 5 oneHourMs).1 (by decide)
  · exact ((C6_rate_limit_invariant.1 1000 [⟨999, 2⟩] 5 oneHourMs).2 (by decide)).1

/-- Claim C7 counterexample: with `windowMs = 1000`, an entry aged 2000
milliseconds (older than `windowMs`, younger than one hour) still counts
against the limit — the call is rejected although the claim says the entry is
discarded. -/
theorem C7_counterexample :
    (isAllowed 7200000 [⟨7198000, 1⟩] 1 1000).1 = false ∧
    (7200000 : Int) - 7198000 ≥ 1000 ∧ (7200000 : Int) - 7198000 < oneHourMs := by
  decide

/-- Claim C7 (amended): on every `isAllowed` check exactly the entries at least
one hour old are discarded; the `windowMs` parameter is accepted (defaulting to
one hour) but never read, so the result is independent of it and an entry older
than `windowMs` but younger than one hour still counts against the limit. -/
theorem C7_window_fixed_one_hour :
    (∀ (now : Int) (stored : List RateEntry) (limit w1 w2 : Int),
      isAllowed now stored limit w1 = isAllowed now stored limit w2) ∧
    (∀ (now : Int) (stored : List RateEntry) (e : RateEntry),
      e ∈ cleanupExpiredEntries now stored ↔
        e ∈ stored ∧ now - e.timestamp < oneHourMs) := by
  constructor
  · intro now stored limit w1 w2
    rfl
  · intro now stored e
    simp [cleanupExpiredEntries, List.mem_filter]

/-- Claim C8: the creation check returns true iff the tier's ceiling for the
resource is the unlimited sentinel (-1) or the current count is strictly below
the ceiling; under tier free (invoice ceiling 5) a count of 4 passes and 5
fails, and under tier pro (unlimited) a count of 999999 passes. -/
theorem C8_can_create :
    (∀ (tier : PlanType) (count : Int),
      canCreateInvoice tier count = true ↔
        ((planLimits tier).invoices = -1 ∨ count < (planLimits tier).invoices)) ∧
    (∀ (tier : PlanType) (count : Int),
      canCreateClient tier count = true ↔
        ((planLimits tier).clients = -1 ∨ count < (planLimits tier).clients)) ∧
    (planLimits .free).invoices = 5 ∧ (planLimits .free).clients = 10 ∧
    (planLimits .pro).invoices = -1 ∧ (planLimits .business).invoices = -1 ∧
    canCreateInvoice .free 4 = true ∧ canCreateInvoice .free 5 = false ∧
    canCreateInvoice .pro 999999 = true ∧ canCreateClient .pro 999999 = true ∧
    canCreateClient .business 999999 = true := by
  refine ⟨?_, ?_, by decide, by decide, by decide, by decide, by decide, by decide,
    by decide, by decide, by decide⟩
  · intro tier count
    cases tier <;> simp [canCreateInvoice, planLimits]
  · intro tier count
    cases tier <;> simp [canCreateClient, planLimits]

/-- Claim C9 counterexample: `hasFeature` is not monotone along
free < pro < business: "Unlimited invoices" is a feature of tier pro but not of
the strictly higher tier business (whose literal feature list only says
"Everything in Pro"). -/
theorem C9_counterexample :
    tierRank .pro < tierRank .business ∧
    hasFeature .pro "Unlimited invoices" = true ∧
    hasFeature .business "Unlimited invoices" = false := by
  decide

/-- Claim C9 (amended): `hasFeature` performs a case-insensitive substring
match of the feature name against the tier's own literal feature-string list;
the three lists are not cumulative, so entitlement is not monotone in the order
free < pro < business: "Email support" holds at free but not at pro, "Custom
templates" holds at pro but not at business. -/
theorem C9_substring_not_monotone :
    (∀ (tier : PlanType) (feature : String),
      hasFeature tier feature =
        (planFeatures tier).any
          (fun f => jsIncludes (jsToLowerCase f) (jsToLowerCase feature))) ∧
    tierRank .free < tierRank .pro ∧ tierRank .pro < tierRank .business ∧
    hasFeature .free "Email support" = true ∧
    hasFeature .pro "Email support" = false ∧
    hasFeature .pro "Custom templates" = true ∧
    hasFeature .business "Custom templates" = false ∧
    hasFeature .business "Multi-user accounts" = true ∧
    hasFeature .pro "Multi-user accounts" = false := by
  exact ⟨fun tier feature => rfl, by decide, by decide, by decide, by decide,
    by decide, by decide, by decide, by decide⟩

/-- Claim C10: during the synchronous notification after a committed session
transition, a throwing subscriber neither prevents any other registered
subscriber from being invoked with the new session value nor alters the
committed session state; every registered subscriber is invoked exactly once,
in registration order (the registry is append-ordered by `onAuthStateChange`). -/
theorem C10_notification_isolation :
    ∀ (st : AuthState) (s : Option CustomSession),
      (setSession s st).1.session = s ∧
      (setSession s st).1.storedSession = s ∧
      (setSession s st).2 = st.listeners.map (fun l => (l.id, s)) ∧
      (setSession s st).2.length = st.listeners.length ∧
      (setSession s st).1.listeners = st.listeners ∧
      (∀ l : Listener, (onAuthStateChange l st).listeners = st.listeners ++ [l]) := by
  intro st s
  refine ⟨rfl, rfl, notifyListeners_eq_map s st.listeners, ?_, rfl, fun l => rfl⟩
  rw [show (setSession s st).2 = notifyListeners s st.listeners from rfl,
    notifyListeners_eq_map]
  exact List.length_map _ _

/-- Claim C4 counterexample: at the exact expiry instant (`now = expires_at`)
`isAuthenticated` returns true although the stored expiry is not in the future
— the source tests `Date.now() > expires_at`, not `≥`. -/
theorem C4_counterexample :
    (isAuthenticated 100
      ⟨some ⟨⟨"u-9", "a@b.c", "N", "p", "g-9", "t0", "t0"⟩, "tok", 100⟩,
       none, [], 0, []⟩).1 = true ∧
    ¬ ((100 : Int) <
      (⟨⟨"u-9", "a@b.c", "N", "p", "g-9", "t0", "t0"⟩, "tok", 100⟩ :
        CustomSession).expires_at) := by
  decide

/-- Claim C4 (amended): `isAuthenticated` returns true iff a session exists and
its expiry has not passed (`now ≤ expires_at`; at the exact expiry instant it
still returns true); a session with `now > expires_at` triggers the implicit
sign-out on this very check (in-memory session cleared, persisted session
removed, subscribers notified) so a subsequent `getSession` returns null; and
whenever true was just returned the stored expiry is at or after the check
instant. -/
theorem C4_lazy_expiry :
    ∀ (now : Int) (st : AuthState),
      ((isAuthenticated now st).1 = true ↔
        ∃ s, st.session = some s ∧ now ≤ s.expires_at) ∧
      (∀ s, st.session = some s → now > s.expires_at →
        isAuthenticated now st =
          (false,
            { st with session := none, storedSession := none, lastActivity := now },
            notifyListeners none st.listeners) ∧
        getSession (isAuthenticated now st).2.1 = none) ∧
      ((isAuthenticated now st).1 = true →
        ∃ s, getSession st = some s ∧ now ≤ s.expires_at) := by
  intro now st
  rcases hs : st.session with _ | s
  · refine ⟨?_, ?_, ?_⟩
    · simp [isAuthenticated, hs]
    · intro s hcontra
      simp [hs] at hcontra
    · simp [isAuthenticated, hs]
  · by_cases hexp : now > s.expires_at
    · refine ⟨?_, ?_, ?_⟩
      · simp only [isAuthenticated, hs]
        rw [if_pos hexp]
        constructor
        · intro h
          simp at h
        · rintro ⟨s2, hs2, hle⟩
          rw [Option.some_inj] at hs2
          subst hs2
          exact absurd hle (not_le.mpr hexp)
      · intro s2 hs2 _
        rw [Option.some_inj] at hs2
        subst hs2
        constructor
        · simp only [isAuthenticated, hs]
          rw [if_pos hexp]
          rfl
        · simp only [isAuthenticated, hs, getSession]
          rw [if_pos hexp]
          rfl
      · simp only [isAuthenticated, hs]
        rw [if_pos hexp]
        simp
    · refine ⟨?_, ?_, ?_⟩
      · simp only [isAuthenticated, hs]
        rw [if_neg hexp]
        constructor
        · intro _
          exact ⟨s, rfl, not_lt.mp hexp⟩
        · intro _
          rfl
      · intro s2 hs2 hgt
        rw [Option.some_inj] at hs2
        subst hs2
        exact absurd hgt hexp
      · intro _
        exact ⟨s, hs, not_lt.mp hexp⟩

/-- Witness for C4 (amended) at a concrete expired session: checking at
instant 200 a session that expired at 100 signs the user out and a subsequent
`getSession` returns null. -/
theorem C4_lazy_expiry_witness :
    isAuthenticated 200 stSignedIn =
      (false,
        { stSignedIn with session := none, storedSession := none, lastActivity := 200 },
        notifyListeners none stSignedIn.listeners) ∧
    getSession (isAuthenticated 200 stSignedIn).2.1 = none :=
  (C4_lazy_expiry 200 stSignedIn).2.1 sessSample rfl (by decide)

/-- Claim C2: on every failing sign-in — undecodable credential, verification
failure (audience mismatch included), or backend upsert failure —
`signInWithGoogle` returns a normalized (user: none, error) result, notifies
nobody, and leaves the whole state (in-memory session, persisted session, user
table) exactly as it was. -/
theorem C2_failure_leaves_state :
    ∀ (st : AuthState) (decoded : Option GoogleUser) (ea : String)
      (insp : Option GoogleTokenPayload) (nowSec : Int) (dbError : Bool)
      (newId nowIso : String) (now : Int),
      (decoded = none →
        signInWithGoogle decoded ea insp nowSec dbError newId nowIso now st =
          (⟨none, some "Invalid Google credential"⟩, st, [])) ∧
      (∀ (gu : GoogleUser) (status : Nat) (m : String), decoded = some gu →
        verifyChecks ea insp gu nowSec = .err status m →
        signInWithGoogle decoded ea insp nowSec dbError newId nowIso now st =
          (⟨none, some ("Token verification failed: " ++ m)⟩, st, [])) ∧
      (∀ (gu : GoogleUser) (u : VerifiedUser), decoded = some gu →
        verifyChecks ea insp gu nowSec = .ok u → dbError = true →
        signInWithGoogle decoded ea insp nowSec dbError newId nowIso now st =
          (⟨none, some "User creation failed: Database error"⟩, st, [])) := by
  intro st decoded ea insp nowSec dbError newId nowIso now
  refine ⟨?_, ?_, ?_⟩
  · intro h
    subst h
    rfl
  · intro gu status m hd hv
    subst hd
    simp [signInWithGoogle, hv, signInContinue]
  · intro gu u hd hv hdb
    subst hd
    subst hdb
    simp [signInWithGoogle, hv, signInContinue]

/-- Witness for C2 at three concrete failing inputs: an undecodable credential,
an audience-mismatched assertion, and a failing database upsert. -/
theorem C2_failure_leaves_state_witness :
    signInWithGoogle none "cid" none 0 false "u-2" "t1" 0 stEmpty =
      (⟨none, some "Invalid Google credential"⟩, stEmpty, []) ∧
    signInWithGoogle (some guSample) "cid" (some tdAudSample) 10 false "u-2" "t1" 0 stSignedIn =
      (⟨none, some ("Token verification failed: " ++ "Token audience mismatch")⟩,
        stSignedIn, []) ∧
    signInWithGoogle (some guSample) "cid" (some tdSample) 10 true "u-2" "t1" 0 stSignedIn =
      (⟨none, some "User creation failed: Database error"⟩, stSignedIn, []) :=
  ⟨(C2_failure_leaves_state stEmpty none "cid" none 0 false "u-2" "t1" 0).1 rfl,
   (C2_failure_leaves_state stSignedIn (some guSample) "cid" (some tdAudSample) 10 false
      "u-2" "t1" 0).2.1 guSample 401 "Token audience mismatch" rfl (by decide),
   (C2_failure_leaves_state stSignedIn (some guSample) "cid" (some tdSample) 10 true
      "u-2" "t1" 0).2.2 guSample ⟨"g-1", "ada@example.com", "Ada", "pic.png"⟩ rfl
      (by decide) rfl⟩

/-- Claim C5: every successfully verified sign-in mints a session whose expiry
is the sign-in instant plus exactly 24 hours, returns that session's user, and
`getSession` before the expiry (in particular after any `isAuthenticated` check
at an instant strictly before it, which neither flips the result nor clears the
session) returns a session carrying the same user. -/
theorem C5_success_session :
    ∀ (st : AuthState) (gu : GoogleUser) (ea : String) (insp : Option GoogleTokenPayload)
      (nowSec : Int) (newId nowIso : String) (now : Int) (u : VerifiedUser),
      verifyChecks ea insp gu nowSec = .ok u →
      ∃ sess : CustomSession,
        (signInWithGoogle (some gu) ea insp nowSec false newId nowIso now st).2.1.session
          = some sess ∧
        sess.expires_at = now + 24 * 60 * 60 * 1000 ∧
        (signInWithGoogle (some gu) ea insp nowSec false newId nowIso now st).1 =
          ⟨some sess.user, none⟩ ∧
        getSession (signInWithGoogle (some gu) ea insp nowSec false newId nowIso now st).2.1
          = some sess ∧
        (∀ t2 : Int, t2 < sess.expires_at →
          isAuthenticated t2
              (signInWithGoogle (some gu) ea insp nowSec false newId nowIso now st).2.1 =
            (true,
              (signInWithGoogle (some gu) ea insp nowSec false newId nowIso now st).2.1,
              [])) := by
  intro st gu ea insp nowSec newId nowIso now u hv
  refine ⟨⟨rowToCustomUser gu (upsertUserRow gu nowIso newId st.userStore).1,
      generateAccessToken (rowToCustomUser gu (upsertUserRow gu nowIso newId st.userStore).1)
        now,
      now + 24 * 60 * 60 * 1000⟩, ?_, rfl, ?_, ?_, ?_⟩
  · simp [signInWithGoogle, hv, signInContinue, setSession]
  · simp [signInWithGoogle, hv, signInContinue, setSession]
  · simp [signInWithGoogle, hv, signInContinue, setSession, getSession]
  · intro t2 ht2
    have ht2' : t2 < now + 24 * 60 * 60 * 1000 := ht2
    have hnot : ¬ (t2 > now + 24 * 60 * 60 * 1000) := by omega
    simp [signInWithGoogle, hv, signInContinue, setSession, isAuthenticated, hnot]
    omega

/-- Witness for C5 at a concrete passing verification from the pristine state. -/
theorem C5_success_session_witness :
    ∃ sess : CustomSession,
      (signInWithGoogle (some guSample) "cid" (some tdSample) 10 false "u-2" "t1" 1000
        stEmpty).2.1.session = some sess ∧
      sess.expires_at = 1000 + 24 * 60 * 60 * 1000 ∧
      (signInWithGoogle (some guSample) "cid" (some tdSample) 10 false "u-2" "t1" 1000
        stEmpty).1 = ⟨some sess.user, none⟩ ∧
      getSession (signInWithGoogle (some guSample) "cid" (some tdSample) 10 false "u-2" "t1"
        1000 stEmpty).2.1 = some sess ∧
      (∀ t2 : Int, t2 < sess.expires_at →
        isAuthenticated t2
            (signInWithGoogle (some guSample) "cid" (some tdSample) 10 false "u-2" "t1" 1000
              stEmpty).2.1 =
          (true,
            (signInWithGoogle (some guSample) "cid" (some tdSample) 10 false "u-2" "t1" 1000
              stEmpty).2.1,
            [])) :=
  C5_success_session stEmpty guSample "cid" (some tdSample) 10 "u-2" "t1" 1000
    ⟨"g-1", "ada@example.com", "Ada", "pic.png"⟩ (by decide)

/-- Claim C1 counterexample: sign-in verification for the subject is in flight,
a sign-out completes (state is SignedOut), then the verification resolves — the
final state holds a session again instead of remaining SignedOut, because the
resolution never compares its identity against the current session. -/
theorem C1_counterexample :
    (signOut 500 stSignedIn).1.session = none ∧
    ((signInContinue guSample (verifyChecks "cid" (some tdSample) guSample 10)
        false "u-2" "t1" 1000 (signOut 500 stSignedIn).1).2.1.session).isSome = true := by
  exact ⟨rfl, rfl⟩

/-- Claim C1 (amended): no staleness comparison exists — a sign-in verification
that resolves after a completed sign-out (current session none) unconditionally
performs the user upsert and overwrites the session, so the race ends
Authenticated with the verified identity's freshly minted session, not
SignedOut. -/
theorem C1_stale_resolution_reapplies :
    ∀ (st : AuthState) (gu : GoogleUser) (u : VerifiedUser) (newId nowIso : String)
      (now : Int),
      st.session = none →
      (signInContinue gu (.ok u) false newId nowIso now st).2.1.session =
        some ⟨rowToCustomUser gu (upsertUserRow gu nowIso newId st.userStore).1,
          generateAccessToken
            (rowToCustomUser gu (upsertUserRow gu nowIso newId st.userStore).1) now,
          now + 24 * 60 * 60 * 1000⟩ ∧
      (signInContinue gu (.ok u) false newId nowIso now st).2.1.userStore =
        (upsertUserRow gu nowIso newId st.userStore).2 := by
  intro st gu u newId nowIso now hsess
  exact ⟨rfl, rfl⟩

/-- Witness for C1 (amended): the state reached by the concrete sign-out of the
race scenario satisfies the hypothesis, and the stale resolution re-creates a
session in it. -/
theorem C1_stale_resolution_reapplies_witness :
    (signInContinue guSample (.ok ⟨"g-1", "ada@example.com", "Ada", "pic.png"⟩)
        false "u-2" "t1" 1000 (signOut 500 stSignedIn).1).2.1.session =
      some ⟨rowToCustomUser guSample
          (upsertUserRow guSample "t1" "u-2" (signOut 500 stSignedIn).1.userStore).1,
        generateAccessToken
          (rowToCustomUser guSample
            (upsertUserRow guSample "t1" "u-2" (signOut 500 stSignedIn).1.userStore).1) 1000,
        1000 + 24 * 60 * 60 * 1000⟩ ∧
    (signInContinue guSample (.ok ⟨"g-1", "ada@example.com", "Ada", "pic.png"⟩)
        false "u-2" "t1" 1000 (signOut 500 stSignedIn).1).2.1.userStore =
      (upsertUserRow guSample "t1" "u-2" (signOut 500 stSignedIn).1.userStore).2 :=
  C1_stale_resolution_reapplies (signOut 500 stSignedIn).1 guSample
    ⟨"g-1", "ada@example.com", "Ada", "pic.png"⟩ "u-2" "t1" 1000 rfl

/-- Claim C3 counterexample: two failing verifications — an audience mismatch
and an expired assertion — surface different error values both in the
verifier's response and in the caller-visible result of `signInWithGoogle`, so
the failed check is distinguishable and no common generic "authentication
failed" value is returned. -/
theorem C3_counterexample :
    verifyChecks "cid" (some tdAudSample) guSample 10 =
      .err 401 "Token audience mismatch" ∧
    verifyChecks "cid" (some tdExpiredSample) guSample 10 =
      .err 401 "Token has expired" ∧
    (signInWithGoogle (some guSample) "cid" (some tdAudSample) 10 false "u-2" "t1" 1000
        stEmpty).1.error ≠
      (signInWithGoogle (some guSample) "cid" (some tdExpiredSample) 10 false "u-2" "t1"
        1000 stEmpty).1.error := by
  refine ⟨by decide, by decide, ?_⟩
  decide

/-- Claim C3 (amended): each of the five internal checks surfaces its own
distinct message — "Invalid Google token", "Token audience mismatch", "Token
has expired", "Email not verified by Google", "Token data mismatch" — with the
uniform status 401; every verification failure carries one of these five
messages, and the caller-visible sign-in error is that specific message behind
the "Token verification failed: " prefix, so failing runs are distinguishable
by which check failed. -/
theorem C3_distinct_error_messages :
    (∀ (ea : String) (gu : GoogleUser) (nowSec : Int),
      verifyChecks ea none gu nowSec = .err 401 "Invalid Google token") ∧
    (∀ (ea : String) (td : GoogleTokenPayload) (gu : GoogleUser) (nowSec : Int),
      td.aud ≠ ea →
      verifyChecks ea (some td) gu nowSec = .err 401 "Token audience mismatch") ∧
    (∀ (ea : String) (td : GoogleTokenPayload) (gu : GoogleUser) (nowSec : Int),
      td.aud = ea → td.exp < nowSec →
      verifyChecks ea (some td) gu nowSec = .err 401 "Token has expired") ∧
    (∀ (ea : String) (td : GoogleTokenPayload) (gu : GoogleUser) (nowSec : Int),
      td.aud = ea → ¬ td.exp < nowSec → td.email_verified = false →
      verifyChecks ea (some td) gu nowSec = .err 401 "Email not verified by Google") ∧
    (∀ (ea : String) (td : GoogleTokenPayload) (gu : GoogleUser) (nowSec : Int),
      td.aud = ea → ¬ td.exp < nowSec → td.email_verified = true →
      (td.sub ≠ gu.id ∨ td.email ≠ gu.email) →
      verifyChecks ea (some td) gu nowSec = .err 401 "Token data mismatch") ∧
    (∀ (ea : String) (insp : Option GoogleTokenPayload) (gu : GoogleUser) (nowSec : Int)
      (status : Nat) (m : String),
      verifyChecks ea insp gu nowSec = .err status m →
      status = 401 ∧
      m ∈ ["Invalid Google token", "Token audience mismatch", "Token has expired",
        "Email not verified by Google", "Token data mismatch"]) ∧
    (∀ (st : AuthState) (gu : GoogleUser) (ea : String)
      (insp : Option GoogleTokenPayload) (nowSec : Int) (dbError : Bool)
      (newId nowIso : String) (now : Int) (status : Nat) (m : String),
      verifyChecks ea insp gu nowSec = .err status m →
      (signInWithGoogle (some gu) ea insp nowSec dbError newId nowIso now st).1.error =
        some ("Token verification failed: " ++ m)) := by
  refine ⟨?_, ?_, ?_, ?_, ?_, ?_, ?_⟩
  · intro ea gu nowSec
    rfl
  · intro ea td gu nowSec h
    simp [verifyChecks, h]
  · intro ea td gu nowSec ha he
    simp [verifyChecks, ha, he]
  · intro ea td gu nowSec ha he hev
    simp [verifyChecks, ha, he, hev]
  · intro ea td gu nowSec ha he hev hd
    simp [verifyChecks, ha, he, hev, hd]
  · intro ea insp gu nowSec status m h
    cases insp with
    | none =>
      simp only [verifyChecks, VerifyResponse.err.injEq] at h
      obtain ⟨h1, h2⟩ := h
      subst h1
      subst h2
      simp
    | some td =>
      simp only [verifyChecks] at h
      repeat' split at h
      all_goals
        simp only [VerifyResponse.err.injEq, reduceCtorEq] at h
      all_goals
        obtain ⟨h1, h2⟩ := h
      all_goals
        subst h1
      all_goals
        subst h2
      all_goals
        simp
  · intro st gu ea insp nowSec dbError newId nowIso now status m h
    simp [signInWithGoogle, h, signInContinue]

/-- Witness for C3 (amended): the audience, expiry, and data-mismatch cases at
concrete inputs, plus the caller-visible propagation of the audience message. -/
theorem C3_distinct_error_messages_witness :
    verifyChecks "cid" (some tdAudSample) guSample 10 =
      .err 401 "Token audience mismatch" ∧
    verifyChecks "cid" (some tdExpiredSample) guSample 10 =
      .err 401 "Token has expired" ∧
    (signInWithGoogle (some guSample) "cid" (some tdAudSample) 10 false "u-2" "t1" 1000
        stEmpty).1.error =
      some ("Token verification failed: " ++ "Token audience mismatch") :=
  ⟨C3_distinct_error_messages.2.1 "cid" tdAudSample guSample 10 (by decide),
   C3_distinct_error_messages.2.2.1 "cid" tdExpiredSample guSample 10 rfl (by decide),
   C3_distinct_error_messages.2.2.2.2.2.2 stEmpty guSample "cid" (some tdAudSample) 10
     false "u-2" "t1" 1000 401 "Token audience mismatch" (by decide)⟩

end QuickBill
